import Mathlib

/-!
Verification of the PATH-Solutions static-data seeding scripts.

This file shallowly embeds the three Python source files

  * `src/databaseResources/static-data/meritBadge.py`
  * `src/databaseResources/static-data/merit-badge-initializer.py`
  * `src/databaseResources/static-data/department-initializer.py`

into Lean.  Pure transformations (the JSON-to-object parsers) become pure
Lean functions.  The seeding procedures, which issue sequential remote
insert/select calls and mutate in-memory objects, become state-passing
functions: the remote backend is an oracle `σ : Nat → Resp` giving the
outcome of the n-th remote call, and a record `St` collects every call
issued (grouped per remote table), every line printed to the error stream,
every line printed to standard output, and the running call counter.
Python exceptions that are caught are turned into logged lines exactly as
the `except` clauses do; exceptions that the source does not catch surface
as `Except.error` / an error flag.
-/

/-- A line written to the error stream (`file=sys.stderr`).  `Log.api m`
models `print(f"API ERROR DETECTED: {m}")` from an `except APIError`
clause, `Log.gen m` models `print(f"GENERAL ERROR DETECTED: {m}")` from an
`except Exception` clause. -/
inductive Log where
  | api (msg : String)
  | gen (msg : String)

/-- Outcome of one remote call (`...execute()` on the supabase client).
`raise api msg` means `execute()` raised: an `APIError` with message `msg`
when `api = true`, any other exception when `api = false`.  `data d`
means `execute()` returned normally and the relevant payload of its
`.data` attribute is `d`: `none` models `data is None` (for an insert) or
a zero-row `maybe_single` result (for the department lookup), and
`some v` models a one-row result carrying the generated/selected
identifier `v` (`data[0]["rqmt_id"]`, `data[0]["badge_id"]`, or
`data["dpmt_id"]`).  A returned row that is missing the identifier key, or
an empty `data` list, would raise inside the same `try` and is modelled by
`raise false msg`. -/
inductive Resp where
  | raise (api : Bool) (msg : String)
  | data (d : Option String)

/-- A Python exception escaping a function uncaught.  `raised api msg`
is a propagated backend exception (see `Resp.raise`), `typeError` models
the `TypeError` from iterating or subscripting `None`, and
`attributeError` models the `AttributeError` from accessing an attribute
on `None`. -/
inductive PyErr where
  | raised (api : Bool) (msg : String)
  | typeError
  | attributeError

/-- The body passed to `supabase.table("merit_badge_rqmt").insert(...)`
in `insert_merit_badge_requirements_recursively`.  `parent_rqmt_id = none`
models the `"parent_rqmt_id"` key being absent from the dictionary (the
source only adds the key when the parameter is not `None`), which signals
NULL to the backend. -/
structure RqmtRow where
  badge_id : String
  rqmt_desc : String
  rqmt_idnf : String
  parent_rqmt_id : Option String

/-- The body passed to `supabase.table("merit_badge").insert(...)` in
`add_merit_badges_by_dpmt`. -/
structure BadgeRow where
  badge_name : String
  badge_desc : String
  eagle_badge : Bool
  dpmt_id : String

/-- The body passed to `supabase.table("camp_dpmt").insert(...)` in the
department seeding loop. -/
structure DeptRow where
  dpmt_name : String

/-- Observable state threaded through the seeding procedures: the remote
call counter `k` (index into the oracle), the calls issued against each
remote table in order, the error-stream lines, the standard-output lines,
and the module-level `count` global of the merit-badge script. -/
structure St where
  k : Nat
  deptLookups : List String
  badgeRows : List BadgeRow
  rows : List RqmtRow
  deptRows : List DeptRow
  logs : List Log
  prints : List String
  count : Nat

/-- The empty starting state. -/
def St.init : St := ⟨0, [], [], [], [], [], [], 0⟩

/-- An untyped JSON record fed to `Requirement.convert_requirement_from_json`.
`rqmt_idnf` / `rqmt_desc` are `none` when the key is absent.  For the
`requirements` key three shapes matter to the source (`'requirements' in
dictionary` and `dictionary['requirements'] is not None` are separate
checks): `none` = key absent, `some none` = key present with value null,
`some (some l)` = key present with list value `l`. -/
inductive ReqJson where
  | mk (rqmt_idnf : Option String) (rqmt_desc : Option String)
       (requirements : Option (Option (List ReqJson)))

/-- An untyped JSON record fed to `MeritBadge.convert_merit_badge_from_json`.
Scalar fields are `none` when the key is absent; `requirements` uses the
same three-state encoding as `ReqJson.requirements`. -/
structure BadgeJson where
  badge_name : Option String
  badge_desc : Option String
  eagle_badge : Option Bool
  dpmt_name : Option String
  requirements : Option (Option (List ReqJson))

/-- The in-memory `Requirement` object of `meritBadge.py`.  Its
`requirements` list holds `Option Requirement` because
`convert_requirement_from_json` appends the raw result of parsing each
child, which is `None` for a malformed child.  The three identifier
attributes are initialized to `None` by `__init__` and written (or not)
by the seeder. -/
inductive Requirement where
  | mk (rqmt_idnf : String) (rqmt_desc : String)
       (requirements : List (Option Requirement))
       (parent_rqmt_id : Option String) (badge_id : Option String)
       (rqmt_id : Option String)

/-- Attribute `rqmt_idnf` of a `Requirement` object. -/
def Requirement.rqmt_idnf : Requirement → String
  | .mk i _ _ _ _ _ => i

/-- Attribute `rqmt_desc` of a `Requirement` object. -/
def Requirement.rqmt_desc : Requirement → String
  | .mk _ d _ _ _ _ => d

/-- Attribute `requirements` (the children list) of a `Requirement` object. -/
def Requirement.requirements : Requirement → List (Option Requirement)
  | .mk _ _ c _ _ _ => c

/-- Attribute `parent_rqmt_id` of a `Requirement` object. -/
def Requirement.parent_rqmt_id : Requirement → Option String
  | .mk _ _ _ p _ _ => p

/-- Attribute `badge_id` of a `Requirement` object. -/
def Requirement.badge_id : Requirement → Option String
  | .mk _ _ _ _ b _ => b

/-- Attribute `rqmt_id` of a `Requirement` object. -/
def Requirement.rqmt_id : Requirement → Option String
  | .mk _ _ _ _ _ q => q

/-- The in-memory `MeritBadge` object of `meritBadge.py`.  `badge_id` is
initialized to `None` by `__init__`. -/
structure MeritBadge where
  badge_id : Option String
  badge_name : String
  badge_desc : String
  eagle_badge : Bool
  dpmt_name : String
  requirements : List (Option Requirement)

mutual

/-- `Requirement.convert_requirement_from_json` (meritBadge.py lines
14-32).  Returns `none` unless both `rqmt_idnf` and `rqmt_desc` keys are
present; parses the nested `requirements` list recursively when the key
is present and non-null, otherwise uses the empty list; the new object's
`parent_rqmt_id`, `badge_id`, `rqmt_id` start as `None`. -/
def convert_requirement_from_json : ReqJson → Option Requirement
  | ReqJson.mk idnf desc reqs =>
    match idnf, desc with
    | some i, some d =>
      match reqs with
      | some (some l) =>
        some (Requirement.mk i d (convert_requirement_list l) none none none)
      | _ =>
        some (Requirement.mk i d [] none none none)
    | _, _ => none

/-- The list comprehension in `convert_requirement_from_json`: each
element of the nested list is parsed by the same rule and the raw result
(possibly `none`) is kept at the same position. -/
def convert_requirement_list : List ReqJson → List (Option Requirement)
  | [] => []
  | j :: rest => convert_requirement_from_json j :: convert_requirement_list rest

end

/-- `MeritBadge.convert_merit_badge_from_json` (meritBadge.py lines
45-59).  Returns `Except.ok none` unless all five keys `badge_name`,
`badge_desc`, `eagle_badge`, `dpmt_name`, `requirements` are present.
When all five are present the requirements list is mapped through the
requirement parser and the fields are copied verbatim; but if the
`requirements` key is present with value null, the list comprehension
iterates `None` and the call raises a `TypeError`
(`dictionary.get('requirements', [])` returns the stored `None` because
the key is present). -/
def convert_merit_badge_from_json : BadgeJson → Except PyErr (Option MeritBadge)
  | ⟨some n, some ds, some e, some dn, some (some l)⟩ =>
    .ok (some ⟨none, n, ds, e, dn, convert_requirement_list l⟩)
  | ⟨some _, some _, some _, some _, some none⟩ => .error .typeError
  | _ => .ok none

mutual

/-- `insert_merit_badge_requirements_recursively` (merit-badge-initializer.py
lines 55-74): iterate the given requirement list, processing each element
with `insert_one_requirement` and threading the state left to right.
Returns the list of (possibly mutated) objects together with the final
state. -/
def insert_merit_badge_requirements_recursively (σ : Nat → Resp) (badge_id : String) :
    List (Option Requirement) → Option String → St → List (Option Requirement) × St
  | [], _, s => ([], s)
  | r :: rest, parent_rqmt_id, s =>
    let head := insert_one_requirement σ badge_id r parent_rqmt_id s
    let tail := insert_merit_badge_requirements_recursively σ badge_id rest parent_rqmt_id head.2
    (head.1 :: tail.1, tail.2)

/-- One iteration of the `for requirement in requirements` loop body of
`insert_merit_badge_requirements_recursively`, i.e. the `try`/`except`
block at lines 58-74.  For a `None` element, `requirement.badge_id = ...`
raises an `AttributeError`, caught by `except Exception` and logged.  For
a real object: `badge_id` is assigned first (before the insert, so also
kept on failure); the row is built with the `parent_rqmt_id` key only
when the parameter is non-`None`; the insert call consumes one oracle
response.  On a raised exception the matching error line is logged and
the iteration ends.  When `data` is `None` nothing further happens.  When
a generated `rqmt_id` comes back it is stored on the object and, if the
children list is non-empty (`len(...) > 0`), the children are inserted
recursively with this `rqmt_id` as their parent.  The object's
`parent_rqmt_id` attribute is never assigned anywhere. -/
def insert_one_requirement (σ : Nat → Resp) (badge_id : String) :
    Option Requirement → Option String → St → Option Requirement × St
  | none, _, s =>
    (none, { s with logs := s.logs ++ [Log.gen "NoneType has no attribute badge_id"] })
  | some (Requirement.mk idnf desc children pid _ qid), parent_rqmt_id, s =>
    let new_requirement : RqmtRow := ⟨badge_id, desc, idnf, parent_rqmt_id⟩
    let s1 : St := { s with k := s.k + 1, rows := s.rows ++ [new_requirement] }
    match σ s.k with
    | Resp.raise true msg =>
      (some (Requirement.mk idnf desc children pid (some badge_id) qid),
        { s1 with logs := s1.logs ++ [Log.api msg] })
    | Resp.raise false msg =>
      (some (Requirement.mk idnf desc children pid (some badge_id) qid),
        { s1 with logs := s1.logs ++ [Log.gen msg] })
    | Resp.data none =>
      (some (Requirement.mk idnf desc children pid (some badge_id) qid), s1)
    | Resp.data (some rqmt_id) =>
      let rec_result :=
        if children.isEmpty then (children, s1)
        else insert_merit_badge_requirements_recursively σ badge_id children (some rqmt_id) s1
      (some (Requirement.mk idnf desc rec_result.1 pid (some badge_id) (some rqmt_id)),
        rec_result.2)

end

/-- The inner `for merit_badge in departments_with_merit_badges[department]`
loop of `add_merit_badges_by_dpmt` (lines 39-53), given the already
resolved `dpmt_id`.  Each iteration is a `try`/`except` block: build the
badge row, issue the insert (one oracle response); on a raised exception
log the matching error line; when `data` is not `None`, store the
generated `badge_id` on the object and insert its requirement tree with
parent `None`; when `data` is `None` the identifier is never stored and
the requirement insertion is skipped (the `if data is not None` branch is
not taken). -/
def add_badges_for_department (σ : Nat → Resp) (dpmt_id : String) :
    List MeritBadge → St → List MeritBadge × St
  | [], s => ([], s)
  | mb :: rest, s =>
    let new_merit_badge : BadgeRow := ⟨mb.badge_name, mb.badge_desc, mb.eagle_badge, dpmt_id⟩
    let s1 : St := { s with k := s.k + 1, badgeRows := s.badgeRows ++ [new_merit_badge] }
    match σ s.k with
    | Resp.raise true msg =>
      let tail := add_badges_for_department σ dpmt_id rest
        { s1 with logs := s1.logs ++ [Log.api msg] }
      (mb :: tail.1, tail.2)
    | Resp.raise false msg =>
      let tail := add_badges_for_department σ dpmt_id rest
        { s1 with logs := s1.logs ++ [Log.gen msg] }
      (mb :: tail.1, tail.2)
    | Resp.data none =>
      let tail := add_badges_for_department σ dpmt_id rest s1
      (mb :: tail.1, tail.2)
    | Resp.data (some merit_badge_id) =>
      let reqs := insert_merit_badge_requirements_recursively σ merit_badge_id
        mb.requirements none s1
      let mb' : MeritBadge := { mb with badge_id := some merit_badge_id, requirements := reqs.1 }
      let tail := add_badges_for_department σ dpmt_id rest reqs.2
      (mb' :: tail.1, tail.2)

/-- `add_merit_badges_by_dpmt` (merit-badge-initializer.py lines 29-53).
For each department key in order: resolve the department id by a
`camp_dpmt` select (one oracle response).  This lookup sits OUTSIDE the
`try` block, so a raised `APIError`/exception propagates out of the
function, and a zero-row result (`data` is `None`) makes the subsequent
`["dpmt_id"]` subscript raise a `TypeError`, which also propagates —
modelled by `Except.error`.  On success, `print(dpmt_id)` and process
the department's badges with the resolved id. -/
def add_merit_badges_by_dpmt (σ : Nat → Resp) :
    List (String × List MeritBadge) → St → Except PyErr (List (String × List MeritBadge) × St)
  | [], s => .ok ([], s)
  | (department, badges) :: rest, s =>
    let s1 : St := { s with k := s.k + 1, deptLookups := s.deptLookups ++ [department] }
    match σ s.k with
    | Resp.raise a m => .error (.raised a m)
    | Resp.data none => .error .typeError
    | Resp.data (some dpmt_id) =>
      let s2 : St := { s1 with prints := s1.prints ++ [dpmt_id] }
      let done := add_badges_for_department σ dpmt_id badges s2
      match add_merit_badges_by_dpmt σ rest done.2 with
      | .ok out => .ok ((department, done.1) :: out.1, out.2)
      | .error e => .error e

/-- An untyped JSON record of a department entry as concatenated from the
department files by department-initializer.py; `dpmt_name = none` models
the key being absent from the entry. -/
structure DeptJson where
  dpmt_name : Option String

/-- The rendering of `print(...)` applied to the `data` returned by a
successful department insert (department-initializer.py line 38). -/
def dataRepr : Option String → String
  | none => "None"
  | some v => v

/-- The `for department in departments` loop of department-initializer.py
(lines 35-42).  Each iteration is a `try`/`except` block: reading
`department['dpmt_name']` on an entry without the key raises a `KeyError`
caught by `except Exception` (no insert call is issued); otherwise
exactly one insert of `{"dpmt_name": name}` is issued (one oracle
response), its `data` is printed on success, and a raised exception is
logged with the matching tag.  The loop never throws. -/
def department_seed_loop (σ : Nat → Resp) : List DeptJson → St → St
  | [], s => s
  | e :: rest, s =>
    match e.dpmt_name with
    | none =>
      department_seed_loop σ rest
        { s with logs := s.logs ++ [Log.gen "KeyError dpmt_name"] }
    | some name =>
      let s1 : St := { s with k := s.k + 1, deptRows := s.deptRows ++ [⟨name⟩] }
      match σ s.k with
      | Resp.raise true msg =>
        department_seed_loop σ rest { s1 with logs := s1.logs ++ [Log.api msg] }
      | Resp.raise false msg =>
        department_seed_loop σ rest { s1 with logs := s1.logs ++ [Log.gen msg] }
      | Resp.data d =>
        department_seed_loop σ rest { s1 with prints := s1.prints ++ [dataRepr d] }

/-- The rendering of `print(...)` applied to a Python bool (`str(True)`
is `"True"`). -/
def boolRepr : Bool → String
  | true => "True"
  | false => "False"

/-- `dict.setdefault(key, []).append(mb)` on an insertion-ordered
dictionary represented as an association list: append to the existing
entry for `key`, or add a new `(key, [mb])` entry at the end. -/
def setdefault_append (key : String) (mb : MeritBadge) :
    List (String × List MeritBadge) → List (String × List MeritBadge)
  | [] => [(key, [mb])]
  | (k, v) :: rest =>
    if k = key then (k, v ++ [mb]) :: rest
    else (k, v) :: setdefault_append key mb rest

/-- The file-parsing loop of merit-badge-initializer.py (lines 107-112):
for each discovered badge file's JSON content in order, run
`MeritBadge.convert_merit_badge_from_json`; a raised exception propagates
(the call is not inside a `try`); a truthy (non-`None`) result is grouped
under `merit_badge.dpmt_name.upper()` by `setdefault(...).append(...)`;
a `None` result is silently skipped.  (The department-folder name paired
with each file is unused by the loop body and omitted here.) -/
def build_departments_with_merit_badges :
    List BadgeJson → List (String × List MeritBadge) →
    Except PyErr (List (String × List MeritBadge))
  | [], groups => .ok groups
  | f :: rest, groups =>
    match convert_merit_badge_from_json f with
    | .error e => .error e
    | .ok none => build_departments_with_merit_badges rest groups
    | .ok (some mb) =>
      build_departments_with_merit_badges rest
        (setdefault_append mb.dpmt_name.toUpper mb groups)

mutual

/-- `print_all_requirements` (merit-badge-initializer.py lines 20-26):
print each requirement's identifier and description with the given
indent, increment the global `count`, and recurse into non-empty children
with a deeper indent.  A `None` element makes `requirement.rqmt_idnf`
raise an `AttributeError` that nothing catches; the second component
`some err` reports that escaped exception (the state holds everything
printed before the crash). -/
def print_all_requirements : List (Option Requirement) → String → St → St × Option PyErr
  | [], _, s => (s, none)
  | r :: rest, indent, s =>
    let head := print_one_requirement r indent s
    match head.2 with
    | some e => (head.1, some e)
    | none => print_all_requirements rest indent head.1

/-- One iteration of the `for requirement in requirements` loop body of
`print_all_requirements`: a `None` element crashes before printing; a
real node prints its identifier and description, increments `count`, and
recurses into its children when they are non-empty. -/
def print_one_requirement : Option Requirement → String → St → St × Option PyErr
  | none, _, s => (s, some PyErr.attributeError)
  | some (Requirement.mk idnf desc children _ _ _), indent, s =>
    let s1 : St :=
      { s with
        prints := s.prints ++
          [indent ++ "RQMT_IDNF: " ++ idnf ++ "\n" ++ indent ++ "RQMT_DESC: " ++ desc],
        count := s.count + 1 }
    if children.isEmpty then (s1, none)
    else print_all_requirements children (indent ++ "\t") s1

end

/-- The inner `for MeritBadge in merit_badge_list` printing loop of
merit-badge-initializer.py (lines 120-125): print the four scalar fields
of each badge, then `print_all_requirements(requirements, "\t")`; an
exception escaping the latter aborts the loop. -/
def print_badge_list : List MeritBadge → St → St × Option PyErr
  | [], s => (s, none)
  | mb :: rest, s =>
    let s1 : St :=
      { s with prints := s.prints ++
          [mb.badge_name, mb.badge_desc, boolRepr mb.eagle_badge, mb.dpmt_name] }
    let printed := print_all_requirements mb.requirements "\t" s1
    match printed.2 with
    | some e => (printed.1, some e)
    | none => print_badge_list rest printed.1

/-- The outer `for merit_badge_list in departments_with_merit_badges_out.values()`
loop of merit-badge-initializer.py (lines 119-125). -/
def print_badge_groups : List (String × List MeritBadge) → St → St × Option PyErr
  | [], s => (s, none)
  | (_, mbs) :: rest, s =>
    let printed := print_badge_list mbs s
    match printed.2 with
    | some e => (printed.1, some e)
    | none => print_badge_groups rest printed.1

/-- The top-level flow of merit-badge-initializer.py after file discovery
(lines 104-126), taking the parsed JSON contents of the discovered badge
files in discovery order: build the grouped dictionary, then run the
printing loops.  The informational `print` calls of the discovery phase
(lines 100, 102, 115), which render file paths and the whole dictionary,
are not modelled.  The only call to `add_merit_badges_by_dpmt` (line 126)
is commented out in the source, so the flow issues no remote call: no
oracle is consumed and no row list of the state is touched. -/
def merit_badge_script_main (files : List BadgeJson) (s : St) : St × Option PyErr :=
  match build_departments_with_merit_badges files [] with
  | .error e => (s, some e)
  | .ok groups => print_badge_groups groups s

mutual

/-- The rows that `insert_merit_badge_requirements_recursively` is
expected to build for one (possibly `None`) element, described from the
captured identifiers of the OUTPUT object: a `None` element contributes
no row; a real node contributes its own row carrying the given
`parent_rqmt_id` (`none` = key absent), followed by its children's rows,
which carry this node's captured `rqmt_id` as their parent. -/
def node_rows_from_captured (badge_id : String) :
    Option String → Option Requirement → List RqmtRow
  | _, none => []
  | parent_rqmt_id, some (Requirement.mk idnf desc children _ _ qid) =>
    ⟨badge_id, desc, idnf, parent_rqmt_id⟩ ::
      forest_rows_from_captured badge_id qid children

/-- `node_rows_from_captured` extended over a list of siblings sharing
one parent. -/
def forest_rows_from_captured (badge_id : String) :
    Option String → List (Option Requirement) → List RqmtRow
  | _, [] => []
  | parent_rqmt_id, r :: rest =>
    node_rows_from_captured badge_id parent_rqmt_id r ++
      forest_rows_from_captured badge_id parent_rqmt_id rest

end

mutual

/-- Every real node of the element has both `badge_id` and `rqmt_id`
captured (set to some generated value), recursively. -/
def node_captured : Option Requirement → Bool
  | none => true
  | some (Requirement.mk _ _ children _ b q) =>
    b.isSome && q.isSome && forest_captured children

/-- `node_captured` extended over a list of siblings. -/
def forest_captured : List (Option Requirement) → Bool
  | [] => true
  | r :: rest => node_captured r && forest_captured rest

end

mutual

/-- The `parent_rqmt_id` attributes of all real nodes of the element, in
depth-first order. -/
def node_pids : Option Requirement → List (Option String)
  | none => []
  | some (Requirement.mk _ _ children pid _ _) => pid :: forest_pids children

/-- `node_pids` extended over a list of siblings. -/
def forest_pids : List (Option Requirement) → List (Option String)
  | [] => []
  | r :: rest => node_pids r ++ forest_pids rest

end

/-- The number of non-`None` elements of a requirement list (each of
which gets exactly one insert attempt of its own when the list is
processed). -/
def count_some_reqs : List (Option Requirement) → Nat
  | [] => 0
  | none :: rest => count_some_reqs rest
  | some _ :: rest => count_some_reqs rest + 1

mutual

/-- A measure on one element of a requirement list; its induction
principle is the mutual structural induction used by the proofs below. -/
def req_node_measure : Option Requirement → Nat
  | none => 0
  | some (Requirement.mk _ _ children _ _ _) => req_forest_measure children + 1

/-- A measure on a requirement list, mutual with `req_node_measure`. -/
def req_forest_measure : List (Option Requirement) → Nat
  | [] => 0
  | r :: rest => req_node_measure r + req_forest_measure rest

end

/-- The final state `s'` performs no remote interaction beyond the
starting state `s`: the call counter and every per-table list of issued
calls are unchanged, and so is the error stream — only standard-output
`prints` and the `count` global may differ. -/
def remote_frame (s' s : St) : Prop :=
  s'.k = s.k ∧ s'.deptLookups = s.deptLookups ∧ s'.badgeRows = s.badgeRows ∧
    s'.rows = s.rows ∧ s'.deptRows = s.deptRows ∧ s'.logs = s.logs

theorem convert_requirement_list_eq_map (l : List ReqJson) :
    convert_requirement_list l = l.map convert_requirement_from_json := by
  induction l with
  | nil => simp [convert_requirement_list]
  | cons j rest ih => simp [convert_requirement_list, ih]

theorem convert_requirement_list_length (l : List ReqJson) :
    (convert_requirement_list l).length = l.length := by
  simp [convert_requirement_list_eq_map]

/-- C5: `convert_requirement_from_json` returns null when the
identifier-code key or the description key is absent; and when both are
present and the `requirements` key is absent or null, it returns a node
whose children sequence is the empty list (and whose identifier
attributes start as `None`). -/
theorem claim_C5 (idnf desc : Option String) (reqs : Option (Option (List ReqJson))) :
    ((idnf = none ∨ desc = none) →
      convert_requirement_from_json (ReqJson.mk idnf desc reqs) = none) ∧
    (∀ i d, idnf = some i → desc = some d → (reqs = none ∨ reqs = some none) →
      convert_requirement_from_json (ReqJson.mk idnf desc reqs) =
        some (Requirement.mk i d [] none none none)) := by
  constructor
  · rintro (rfl | rfl)
    · simp [convert_requirement_from_json]
    · cases idnf <;> simp [convert_requirement_from_json]
  · rintro i d rfl rfl (rfl | rfl) <;> simp [convert_requirement_from_json]

/-- Witness for C5 at concrete inputs: a record missing the description
key parses to null, and a record with both keys and no `requirements`
key parses to a node with an empty children list. -/
theorem claim_C5_witness :
    convert_requirement_from_json (ReqJson.mk (some "1") none none) = none ∧
    convert_requirement_from_json (ReqJson.mk (some "1") (some "Do a thing") none) =
      some (Requirement.mk "1" "Do a thing" [] none none none) :=
  ⟨(claim_C5 (some "1") none none).1 (Or.inr rfl),
   (claim_C5 (some "1") (some "Do a thing") none).2 "1" "Do a thing" rfl rfl (Or.inl rfl)⟩

/-- A record missing the identifier-code key or the description key
parses to null (the converse direction of the presence check). -/
theorem convert_malformed_eq_none (idnf desc : Option String)
    (reqs : Option (Option (List ReqJson))) (h : idnf = none ∨ desc = none) :
    convert_requirement_from_json (ReqJson.mk idnf desc reqs) = none := by
  rcases h with rfl | rfl
  · simp [convert_requirement_from_json]
  · cases idnf <;> simp [convert_requirement_from_json]

/-- C6: a malformed child (missing `rqmt_idnf` or `rqmt_desc`) inside a
well-formed parent's `requirements` list does not abort the parent:
the parent still parses to a non-null node, its children sequence has the
same length as the input list, and the malformed child's position holds
null. -/
theorem claim_C6 (i d : String) (l : List ReqJson) (n : Nat)
    (idnf' desc' : Option String) (reqs' : Option (Option (List ReqJson)))
    (hn : l[n]? = some (ReqJson.mk idnf' desc' reqs'))
    (hmal : idnf' = none ∨ desc' = none) :
    ∃ p, convert_requirement_from_json (ReqJson.mk (some i) (some d) (some (some l))) =
        some p ∧
      p.requirements.length = l.length ∧
      p.requirements[n]? = some none := by
  refine ⟨Requirement.mk i d (convert_requirement_list l) none none none, ?_, ?_, ?_⟩
  · simp [convert_requirement_from_json]
  · simp [Requirement.requirements, convert_requirement_list_length]
  · simp only [Requirement.requirements, convert_requirement_list_eq_map]
    rw [List.getElem?_map, hn]
    simp [convert_malformed_eq_none idnf' desc' reqs' hmal]

/-- Witness for C6 at a concrete input: a parent with two children, the
second of which is missing its description key, parses to a node with a
two-element children list whose second element is null. -/
theorem claim_C6_witness :
    ∃ p, convert_requirement_from_json
        (ReqJson.mk (some "1") (some "Root")
          (some (some [ReqJson.mk (some "1a") (some "Good child") none,
                       ReqJson.mk (some "1b") none none]))) = some p ∧
      p.requirements.length =
        [ReqJson.mk (some "1a") (some "Good child") none,
         ReqJson.mk (some "1b") none none].length ∧
      p.requirements[1]? = some none :=
  claim_C6 "1" "Root"
    [ReqJson.mk (some "1a") (some "Good child") none, ReqJson.mk (some "1b") none none]
    1 (some "1b") none none rfl (Or.inr rfl)

/-- C4 counterexample: a record in which all five keys are present but the
`requirements` value is null.  `'requirements' in dictionary` succeeds, so
the presence check passes, and the list comprehension then iterates
`None`: the call raises a `TypeError` instead of returning a non-null
object, refuting "returns a non-null object if and only if all five keys
are present". -/
theorem claim_C4_cex :
    convert_merit_badge_from_json
      (BadgeJson.mk (some "Camping") (some "Outdoor skills") (some true)
        (some "OUTDOOR") (some none)) = Except.error PyErr.typeError ∧
    ¬ ∃ mb, convert_merit_badge_from_json
      (BadgeJson.mk (some "Camping") (some "Outdoor skills") (some true)
        (some "OUTDOOR") (some none)) = Except.ok (some mb) := by
  constructor
  · rfl
  · rintro ⟨mb, h⟩
    simp [convert_merit_badge_from_json] at h

/-- C4 (amended): `convert_merit_badge_from_json` returns a non-null
object iff all five keys are present AND the `requirements` value is a
list (not null); a present-but-null `requirements` value raises a
`TypeError` instead.  On success the scalar fields are copied verbatim
and the root requirements sequence has the same length as the input
list. -/
theorem claim_C4_amended (j : BadgeJson) :
    ((∃ mb, convert_merit_badge_from_json j = .ok (some mb)) ↔
      (j.badge_name.isSome ∧ j.badge_desc.isSome ∧ j.eagle_badge.isSome ∧
        j.dpmt_name.isSome ∧ ∃ l, j.requirements = some (some l))) ∧
    (∀ mb, convert_merit_badge_from_json j = .ok (some mb) →
      j.badge_name = some mb.badge_name ∧ j.badge_desc = some mb.badge_desc ∧
      j.eagle_badge = some mb.eagle_badge ∧ j.dpmt_name = some mb.dpmt_name ∧
      ∀ l, j.requirements = some (some l) → mb.requirements.length = l.length) := by
  obtain ⟨bn, bd, eb, dn, rq⟩ := j
  rcases bn with _ | n <;> rcases bd with _ | ds <;> rcases eb with _ | e <;>
    rcases dn with _ | dnm <;> rcases rq with _ | (_ | l) <;>
    simp [convert_merit_badge_from_json, convert_requirement_list_length]

/-- Witness for C4 (amended) at a concrete input: a record with all five
keys and a one-element requirements list parses to a non-null object with
verbatim fields and a one-element root sequence. -/
theorem claim_C4_amended_witness :
    (∃ mb, convert_merit_badge_from_json
      (BadgeJson.mk (some "Camping") (some "Outdoor skills") (some true)
        (some "OUTDOOR") (some (some [ReqJson.mk (some "1") (some "Hike") none]))) =
        .ok (some mb)) ∧
    ∀ mb, convert_merit_badge_from_json
      (BadgeJson.mk (some "Camping") (some "Outdoor skills") (some true)
        (some "OUTDOOR") (some (some [ReqJson.mk (some "1") (some "Hike") none]))) =
        .ok (some mb) →
      some "Camping" = some mb.badge_name ∧ mb.requirements.length = 1 := by
  have h := claim_C4_amended
    (BadgeJson.mk (some "Camping") (some "Outdoor skills") (some true)
      (some "OUTDOOR") (some (some [ReqJson.mk (some "1") (some "Hike") none])))
  refine ⟨h.1.2 ⟨rfl, rfl, rfl, rfl, ⟨_, rfl⟩⟩, fun mb hmb => ?_⟩
  have h2 := h.2 mb hmb
  exact ⟨h2.1, h2.2.2.2.2 _ rfl⟩

theorem insert_rows_and_capture (σ : Nat → Resp) (badge_id : String)
    (h : ∀ n, ∃ id, σ n = Resp.data (some id)) :
    (∀ r : Option Requirement, ∀ parent s,
      (insert_one_requirement σ badge_id r parent s).2.rows =
        s.rows ++ node_rows_from_captured badge_id parent
          (insert_one_requirement σ badge_id r parent s).1 ∧
      node_captured (insert_one_requirement σ badge_id r parent s).1 = true) ∧
    (∀ rs : List (Option Requirement), ∀ parent s,
      (insert_merit_badge_requirements_recursively σ badge_id rs parent s).2.rows =
        s.rows ++ forest_rows_from_captured badge_id parent
          (insert_merit_badge_requirements_recursively σ badge_id rs parent s).1 ∧
      forest_captured
        (insert_merit_badge_requirements_recursively σ badge_id rs parent s).1 = true) := by
  refine req_node_measure.mutual_induct _ _ ?_ ?_ ?_ ?_
  · intro parent s
    simp [insert_one_requirement, node_rows_from_captured, node_captured]
  · intro idnf desc children pid b q ih parent s
    obtain ⟨id, hid⟩ := h s.k
    by_cases hc : children.isEmpty
    · rw [List.isEmpty_iff] at hc
      subst hc
      simp [insert_one_requirement, hid, node_rows_from_captured, node_captured,
        forest_rows_from_captured, forest_captured]
    · have ih1 := ih (some id)
        { s with k := s.k + 1, rows := s.rows ++ [⟨badge_id, desc, idnf, parent⟩] }
      simp only [insert_one_requirement, hid, if_neg hc] at *
      simp [node_rows_from_captured, node_captured, ih1.1, ih1.2]
  · intro parent s
    simp [insert_merit_badge_requirements_recursively, forest_rows_from_captured,
      forest_captured]
  · intro r rest ih1 ih2 parent s
    have h1 := ih1 parent s
    have h2 := ih2 parent (insert_one_requirement σ badge_id r parent s).2
    simp only [insert_merit_badge_requirements_recursively]
    simp [forest_rows_from_captured, forest_captured, h1.1, h1.2, h2.1, h2.2]

theorem insert_pids_preserved (σ : Nat → Resp) (badge_id : String) :
    (∀ r : Option Requirement, ∀ parent s,
      node_pids (insert_one_requirement σ badge_id r parent s).1 = node_pids r) ∧
    (∀ rs : List (Option Requirement), ∀ parent s,
      forest_pids
        (insert_merit_badge_requirements_recursively σ badge_id rs parent s).1 =
        forest_pids rs) := by
  refine req_node_measure.mutual_induct _ _ ?_ ?_ ?_ ?_
  · intro parent s
    simp [insert_one_requirement]
  · intro idnf desc children pid b q ih parent s
    cases hresp : σ s.k with
    | raise api msg =>
      cases api <;> simp [insert_one_requirement, hresp, node_pids]
    | data d =>
      cases d with
      | none => simp [insert_one_requirement, hresp, node_pids]
      | some id =>
        by_cases hc : children.isEmpty
        · simp [insert_one_requirement, hresp, if_pos hc, node_pids]
        · have ih1 := ih (some id)
            { s with k := s.k + 1, rows := s.rows ++ [⟨badge_id, desc, idnf, parent⟩] }
          simp [insert_one_requirement, hresp, if_neg hc, node_pids, ih1]
  · intro parent s
    simp [insert_merit_badge_requirements_recursively]
  · intro r rest ih1 ih2 parent s
    simp only [insert_merit_badge_requirements_recursively]
    simp [forest_pids, ih1 parent s,
      ih2 parent (insert_one_requirement σ badge_id r parent s).2]

theorem insert_rows_len_mono (σ : Nat → Resp) (badge_id : String) :
    (∀ r : Option Requirement, ∀ parent s,
      s.rows.length ≤ (insert_one_requirement σ badge_id r parent s).2.rows.length) ∧
    (∀ rs : List (Option Requirement), ∀ parent s,
      s.rows.length ≤
        (insert_merit_badge_requirements_recursively σ badge_id rs parent s).2.rows.length) := by
  refine req_node_measure.mutual_induct _ _ ?_ ?_ ?_ ?_
  · intro parent s
    simp [insert_one_requirement]
  · intro idnf desc children pid b q ih parent s
    cases hresp : σ s.k with
    | raise api msg =>
      cases api <;> simp [insert_one_requirement, hresp]
    | data d =>
      cases d with
      | none => simp [insert_one_requirement, hresp]
      | some id =>
        by_cases hc : children.isEmpty
        · simp [insert_one_requirement, hresp, if_pos hc]
        · have ih1 := ih (some id)
            { s with k := s.k + 1, rows := s.rows ++ [⟨badge_id, desc, idnf, parent⟩] }
          simp only [insert_one_requirement, hresp, if_neg hc]
          simp only [List.length_append, List.length_cons, List.length_nil] at ih1 ⊢
          omega
  · intro parent s
    simp [insert_merit_badge_requirements_recursively]
  · intro r rest ih1 ih2 parent s
    have h1 := ih1 parent s
    have h2 := ih2 parent (insert_one_requirement σ badge_id r parent s).2
    simp only [insert_merit_badge_requirements_recursively]
    omega

theorem insert_rows_len_ge (σ : Nat → Resp) (badge_id : String) :
    (∀ r : Option Requirement, ∀ parent s,
      s.rows.length + count_some_reqs [r] ≤
        (insert_one_requirement σ badge_id r parent s).2.rows.length) ∧
    (∀ rs : List (Option Requirement), ∀ parent s,
      s.rows.length + count_some_reqs rs ≤
        (insert_merit_badge_requirements_recursively σ badge_id rs parent s).2.rows.length) := by
  refine req_node_measure.mutual_induct _ _ ?_ ?_ ?_ ?_
  · intro parent s
    simp [insert_one_requirement, count_some_reqs]
  · intro idnf desc children pid b q _ parent s
    cases hresp : σ s.k with
    | raise api msg =>
      cases api <;> simp [insert_one_requirement, hresp, count_some_reqs]
    | data d =>
      cases d with
      | none => simp [insert_one_requirement, hresp, count_some_reqs]
      | some id =>
        by_cases hc : children.isEmpty
        · simp [insert_one_requirement, hresp, if_pos hc, count_some_reqs]
        · have hmono := (insert_rows_len_mono σ badge_id).2 children (some id)
            { s with k := s.k + 1, rows := s.rows ++ [⟨badge_id, desc, idnf, parent⟩] }
          simp only [insert_one_requirement, hresp, if_neg hc]
          simp only [List.length_append, List.length_cons, List.length_nil,
            count_some_reqs] at hmono ⊢
          omega
  · intro parent s
    simp [insert_merit_badge_requirements_recursively, count_some_reqs]
  · intro r rest ih1 ih2 parent s
    have h1 := ih1 parent s
    have h2 := ih2 parent (insert_one_requirement σ badge_id r parent s).2
    have hsplit : count_some_reqs (r :: rest) = count_some_reqs [r] + count_some_reqs rest := by
      cases r
      · simp [count_some_reqs]
      · simp [count_some_reqs]
        omega
    simp only [insert_merit_badge_requirements_recursively]
    omega

/-- C1: in a run of `insert_merit_badge_requirements_recursively` on a
requirement tree, starting from `parent_rqmt_id = None`, in which every
remote insert succeeds and returns a generated id, the rows issued are
exactly the per-node rows in which every root node's row carries no
`parent_rqmt_id` key (`none`) and every child node's row carries as
`parent_rqmt_id` the generated `rqmt_id` captured on its parent node in
the output tree; and every node's `badge_id` and `rqmt_id` are
captured. -/
theorem claim_C1 (σ : Nat → Resp) (badge_id : String)
    (h : ∀ n, ∃ id, σ n = Resp.data (some id))
    (reqs : List (Option Requirement)) (s : St) :
    (insert_merit_badge_requirements_recursively σ badge_id reqs none s).2.rows =
      s.rows ++ forest_rows_from_captured badge_id none
        (insert_merit_badge_requirements_recursively σ badge_id reqs none s).1 ∧
    forest_captured
      (insert_merit_badge_requirements_recursively σ badge_id reqs none s).1 = true :=
  (insert_rows_and_capture σ badge_id h).2 reqs none s

/-- Witness for C1: the constant all-success oracle satisfies the
hypothesis, and the conclusion holds for a concrete three-node, two-level
tree seeded from the initial state. -/
theorem claim_C1_witness :
    (∀ n : Nat, ∃ id : String,
      (fun (_ : Nat) => Resp.data (some "7")) n = Resp.data (some id)) ∧
    ((insert_merit_badge_requirements_recursively (fun _ => Resp.data (some "7")) "B"
        [some (Requirement.mk "1" "Camp overnight"
          [some (Requirement.mk "1a" "Pitch a tent" [] none none none),
           some (Requirement.mk "1b" "Cook a meal" [] none none none)]
          none none none)] none St.init).2.rows =
      St.init.rows ++ forest_rows_from_captured "B" none
        (insert_merit_badge_requirements_recursively (fun _ => Resp.data (some "7")) "B"
          [some (Requirement.mk "1" "Camp overnight"
            [some (Requirement.mk "1a" "Pitch a tent" [] none none none),
             some (Requirement.mk "1b" "Cook a meal" [] none none none)]
            none none none)] none St.init).1 ∧
      forest_captured
        (insert_merit_badge_requirements_recursively (fun _ => Resp.data (some "7")) "B"
          [some (Requirement.mk "1" "Camp overnight"
            [some (Requirement.mk "1a" "Pitch a tent" [] none none none),
             some (Requirement.mk "1b" "Cook a meal" [] none none none)]
            none none none)] none St.init).1 = true) :=
  ⟨fun _ => ⟨"7", rfl⟩,
   claim_C1 (fun _ => Resp.data (some "7")) "B" (fun _ => ⟨"7", rfl⟩)
     [some (Requirement.mk "1" "Camp overnight"
       [some (Requirement.mk "1a" "Pitch a tent" [] none none none),
        some (Requirement.mk "1b" "Cook a meal" [] none none none)]
       none none none)] St.init⟩

/-- C3 counterexample: a node whose insert raises still has its in-memory
`badge_id` attribute mutated, because `requirement.badge_id = badge_id`
is executed before the insert call inside the `try` block.  This refutes
"if the insert for a node fails, none of that node's identifier fields
change": the input node has `badge_id = none`, the insert raises an
`APIError`, and the returned node has `badge_id = some "B"`. -/
theorem claim_C3_cex :
    (insert_merit_badge_requirements_recursively (fun _ => Resp.raise true "db down") "B"
        [some (Requirement.mk "1" "Camp overnight" [] none none none)] none St.init).1 =
      [some (Requirement.mk "1" "Camp overnight" [] none (some "B") none)] ∧
    Requirement.badge_id (Requirement.mk "1" "Camp overnight" [] none (some "B") none) ≠
      Requirement.badge_id (Requirement.mk "1" "Camp overnight" [] none none none) := by
  constructor
  · simp [insert_merit_badge_requirements_recursively, insert_one_requirement]
  · simp [Requirement.badge_id]

/-- C3 (amended): for every node processed by
`insert_merit_badge_requirements_recursively`, `rqmt_id` is written
exactly when the remote insert for that node returns a generated id (and
then holds that id); `badge_id` is written unconditionally before the
insert attempt, so it is set to the badge id even when the insert fails;
and the in-memory `parent_rqmt_id` attribute is never written at all.
First conjunct: every element of the list handed to
`insert_merit_badge_requirements_recursively` is processed by exactly one
iteration of the loop body (`insert_one_requirement`), and the same holds
recursively for children, so every processed node is covered by the
second conjunct.  Second conjunct: for an arbitrary node — arbitrary
children list, identifier fields and response — the iteration returns the
node with `badge_id = some badge_id` unconditionally, `rqmt_id` equal to
the generated id when the response carries one and unchanged otherwise
(in particular unchanged when the insert raises or yields no data), and
`parent_rqmt_id` unchanged.  Third conjunct: the `parent_rqmt_id`
attributes of the entire output forest equal those of the input forest in
every run. -/
theorem claim_C3_amended (σ : Nat → Resp) (badge_id : String) :
    (∀ r rest parent s,
      insert_merit_badge_requirements_recursively σ badge_id (r :: rest) parent s =
        (let head := insert_one_requirement σ badge_id r parent s
         let tail :=
           insert_merit_badge_requirements_recursively σ badge_id rest parent head.2
         (head.1 :: tail.1, tail.2))) ∧
    (∀ idnf desc children pid b q parent s, ∃ children',
      (insert_one_requirement σ badge_id
          (some (Requirement.mk idnf desc children pid b q)) parent s).1 =
        some (Requirement.mk idnf desc children' pid (some badge_id)
          (match σ s.k with
           | Resp.data (some i) => some i
           | _ => q))) ∧
    (∀ rs parent s,
      forest_pids
        (insert_merit_badge_requirements_recursively σ badge_id rs parent s).1 =
        forest_pids rs) := by
  refine ⟨?_, ?_, (insert_pids_preserved σ badge_id).2⟩
  · intro r rest parent s
    simp [insert_merit_badge_requirements_recursively]
  · intro idnf desc children pid b q parent s
    cases hresp : σ s.k with
    | raise api msg =>
      cases api <;>
        exact ⟨children, by simp [insert_one_requirement, hresp]⟩
    | data d =>
      cases d with
      | none => exact ⟨children, by simp [insert_one_requirement, hresp]⟩
      | some i =>
        by_cases hc : children.isEmpty
        · exact ⟨children, by simp [insert_one_requirement, hresp, if_pos hc]⟩
        · exact ⟨(insert_merit_badge_requirements_recursively σ badge_id children (some i)
            { s with
              k := s.k + 1,
              rows := s.rows ++ [⟨badge_id, desc, idnf, parent⟩] }).1,
            by simp [insert_one_requirement, hresp, if_neg hc]⟩

/-- C8: when the insert for one requirement node raises (backend
`APIError` or any other exception), the run logs exactly one error line
with the matching tag, does not recurse into that node's children (the
whole remainder of the run is exactly the run on the later siblings, so
no descendant of the failed node is ever inserted), and still attempts
the later siblings — in every run, each non-null element of the list
contributes at least its own insert attempt to the rows issued. -/
theorem claim_C8 (σ : Nat → Resp) (badge_id : String) (idnf desc : String)
    (children : List (Option Requirement)) (pid b q : Option String)
    (rest : List (Option Requirement)) (parent : Option String) (s : St)
    (api : Bool) (msg : String) (h : σ s.k = Resp.raise api msg) :
    (insert_merit_badge_requirements_recursively σ badge_id
        (some (Requirement.mk idnf desc children pid b q) :: rest) parent s =
      (let s1 : St :=
         { s with
           k := s.k + 1,
           rows := s.rows ++ [⟨badge_id, desc, idnf, parent⟩],
           logs := s.logs ++ [if api then Log.api msg else Log.gen msg] }
       let tail := insert_merit_badge_requirements_recursively σ badge_id rest parent s1
       (some (Requirement.mk idnf desc children pid (some badge_id) q) :: tail.1,
         tail.2))) ∧
    (∀ rs parent' s', s'.rows.length + count_some_reqs rs ≤
      (insert_merit_badge_requirements_recursively σ badge_id rs parent' s').2.rows.length) := by
  constructor
  · cases api <;>
      simp [insert_merit_badge_requirements_recursively, insert_one_requirement, h]
  · exact (insert_rows_len_ge σ badge_id).2

/-- Witness for C8 at a concrete input: with a constant-failure oracle, a
root node with one child logs exactly one API ERROR line, and the run on
a singleton list issues exactly one insert attempt (its own row and
nothing for the child). -/
theorem claim_C8_witness :
    (fun (_ : Nat) => Resp.raise true "db down") St.init.k = Resp.raise true "db down" ∧
    (insert_merit_badge_requirements_recursively (fun _ => Resp.raise true "db down") "B"
      [some (Requirement.mk "1" "Camp overnight"
        [some (Requirement.mk "1a" "Pitch a tent" [] none none none)] none none none)]
      none St.init).2.logs = [Log.api "db down"] ∧
    (insert_merit_badge_requirements_recursively (fun _ => Resp.raise true "db down") "B"
      [some (Requirement.mk "1" "Camp overnight"
        [some (Requirement.mk "1a" "Pitch a tent" [] none none none)] none none none)]
      none St.init).2.rows = [⟨"B", "Camp overnight", "1", none⟩] := by
  have h8 := claim_C8 (fun _ => Resp.raise true "db down") "B" "1" "Camp overnight"
    [some (Requirement.mk "1a" "Pitch a tent" [] none none none)] none none none [] none
    St.init true "db down" rfl
  refine ⟨rfl, ?_, ?_⟩ <;> rw [h8.1] <;>
    simp [insert_merit_badge_requirements_recursively, St.init]

/-- C7: when the remote insert of a badge returns `data = None`, the
`if data is not None` branch is not taken: the badge object is returned
unchanged (its `badge_id` is never set) and
`insert_merit_badge_requirements_recursively` is never called for it —
the continuation state records the badge-insert attempt but no
requirement row and no log, and the rest of the run is exactly the run on
the remaining badges. -/
theorem claim_C7 (σ : Nat → Resp) (dpmt_id : String) (mb : MeritBadge)
    (rest : List MeritBadge) (s : St) (h : σ s.k = Resp.data none) :
    add_badges_for_department σ dpmt_id (mb :: rest) s =
      (let s1 : St :=
         { s with
           k := s.k + 1,
           badgeRows := s.badgeRows ++
             [⟨mb.badge_name, mb.badge_desc, mb.eagle_badge, dpmt_id⟩] }
       let tail := add_badges_for_department σ dpmt_id rest s1
       (mb :: tail.1, tail.2)) := by
  simp [add_badges_for_department, h]

/-- Witness for C7 at a concrete input: the badge comes back with its
`badge_id` still `None` and no requirement row is ever issued, although
the badge has a requirement node. -/
theorem claim_C7_witness :
    (fun (_ : Nat) => Resp.data none) St.init.k = Resp.data none ∧
    (add_badges_for_department (fun _ => Resp.data none) "D1"
      [⟨none, "Camping", "Outdoor skills", true, "OUTDOOR",
        [some (Requirement.mk "1" "Hike" [] none none none)]⟩] St.init).1 =
      [⟨none, "Camping", "Outdoor skills", true, "OUTDOOR",
        [some (Requirement.mk "1" "Hike" [] none none none)]⟩] ∧
    (add_badges_for_department (fun _ => Resp.data none) "D1"
      [⟨none, "Camping", "Outdoor skills", true, "OUTDOOR",
        [some (Requirement.mk "1" "Hike" [] none none none)]⟩] St.init).2.rows = [] := by
  have h7 := claim_C7 (fun _ => Resp.data none) "D1"
    ⟨none, "Camping", "Outdoor skills", true, "OUTDOOR",
      [some (Requirement.mk "1" "Hike" [] none none none)]⟩ [] St.init rfl
  refine ⟨rfl, ?_, ?_⟩ <;> rw [h7] <;> simp [add_badges_for_department, St.init]

/-- C2 counterexample: the department-id resolution sits outside the
`try` block of `add_merit_badges_by_dpmt`.  With a department whose
lookup returns zero rows (`data` is `None`), the `["dpmt_id"]` subscript
raises a `TypeError` that nothing catches: the whole run aborts with an
escaped exception instead of continuing, refuting "every failure of a
remote call ... is caught at the narrowest enclosing per-record scope and
never escapes to abort the overall run". -/
theorem claim_C2_cex :
    add_merit_badges_by_dpmt (fun _ => Resp.data none)
        [("SHOOTING SPORTS", [])] St.init = Except.error PyErr.typeError ∧
    ¬ ∃ out, add_merit_badges_by_dpmt (fun _ => Resp.data none)
        [("SHOOTING SPORTS", [])] St.init = Except.ok out := by
  constructor
  · simp [add_merit_badges_by_dpmt]
  · rintro ⟨out, hout⟩
    simp [add_merit_badges_by_dpmt] at hout

/-- C2 (amended): failures of the per-badge insert and of the
per-requirement-node insert are caught at the narrowest per-record scope
and never abort the run of `add_merit_badges_by_dpmt` — with a successful
department lookup the run returns normally whatever the remaining
responses are — but a failure during department-id resolution is NOT
caught: a raised backend error propagates out, and a zero-row lookup
result raises an uncaught `TypeError`, either way aborting the overall
run. -/
theorem claim_C2_amended (σ : Nat → Resp) (department : String)
    (badges : List MeritBadge) (rest : List (String × List MeritBadge)) (s : St) :
    (σ s.k = Resp.data none →
      add_merit_badges_by_dpmt σ ((department, badges) :: rest) s =
        Except.error PyErr.typeError) ∧
    (∀ a m, σ s.k = Resp.raise a m →
      add_merit_badges_by_dpmt σ ((department, badges) :: rest) s =
        Except.error (PyErr.raised a m)) ∧
    (∀ dpmt_id, σ s.k = Resp.data (some dpmt_id) →
      ∃ out, add_merit_badges_by_dpmt σ [(department, badges)] s = Except.ok out) := by
  refine ⟨fun h => ?_, fun a m h => ?_, fun did h => ?_⟩
  · simp [add_merit_badges_by_dpmt, h]
  · simp [add_merit_badges_by_dpmt, h]
  · simp only [add_merit_badges_by_dpmt, h]
    exact ⟨_, rfl⟩

/-- Witness for C2 (amended) at concrete inputs: a zero-row lookup aborts
the run with a `TypeError`; a successful lookup returns normally even
though every later response is a backend error. -/
theorem claim_C2_amended_witness :
    add_merit_badges_by_dpmt (fun _ => Resp.data none) [("AQUATICS", [])] St.init =
      Except.error PyErr.typeError ∧
    ∃ out, add_merit_badges_by_dpmt
      (fun n => if n = 0 then Resp.data (some "D1") else Resp.raise true "db down")
      [("AQUATICS",
        [⟨none, "Swimming", "Water skills", true, "AQUATICS",
          [some (Requirement.mk "1" "Float" [] none none none)]⟩])] St.init =
      Except.ok out :=
  ⟨(claim_C2_amended (fun _ => Resp.data none) "AQUATICS" [] [] St.init).1 rfl,
   (claim_C2_amended
     (fun n => if n = 0 then Resp.data (some "D1") else Resp.raise true "db down")
     "AQUATICS"
     [⟨none, "Swimming", "Water skills", true, "AQUATICS",
       [some (Requirement.mk "1" "Float" [] none none none)]⟩] [] St.init).2.2 "D1" rfl⟩

/-- C9: the department seeding loop issues, for every entry in order,
exactly one insert whose body is the entry's `dpmt_name`; and a
backend-reported error on one entry's insert appends exactly one API
ERROR line to the error stream, after which the loop continues with the
remaining entries without throwing (the run is exactly the run on the
rest from the updated state). -/
theorem claim_C9 (σ : Nat → Resp) :
    (∀ names : List String, ∀ s : St,
      (department_seed_loop σ (names.map fun n => ⟨some n⟩) s).deptRows =
        s.deptRows ++ names.map fun n => ⟨n⟩) ∧
    (∀ name rest s msg, σ s.k = Resp.raise true msg →
      department_seed_loop σ ((⟨some name⟩ : DeptJson) :: rest) s =
        department_seed_loop σ rest
          { s with
            k := s.k + 1,
            deptRows := s.deptRows ++ [⟨name⟩],
            logs := s.logs ++ [Log.api msg] }) := by
  constructor
  · intro names
    induction names with
    | nil => intro s; simp [department_seed_loop]
    | cons n rest ih =>
      intro s
      cases hresp : σ s.k with
      | raise api msg =>
        cases api <;> simp [department_seed_loop, hresp, ih]
      | data d =>
        simp [department_seed_loop, hresp, ih]
  · intro name rest s msg h
    simp [department_seed_loop, h]

/-- Witness for C9 at a concrete input: two entries under a
constant-API-error oracle still produce one insert row each, and the
first entry's step appends exactly one API ERROR line and continues. -/
theorem claim_C9_witness :
    (department_seed_loop (fun _ => Resp.raise true "duplicate key")
        [⟨some "Camping"⟩, ⟨some "Aquatics"⟩] St.init).deptRows =
      [⟨"Camping"⟩, ⟨"Aquatics"⟩] ∧
    department_seed_loop (fun _ => Resp.raise true "duplicate key")
        [⟨some "Camping"⟩] St.init =
      { St.init with k := 1, deptRows := [⟨"Camping"⟩], logs := [Log.api "duplicate key"] } := by
  have h9 := claim_C9 (fun _ => Resp.raise true "duplicate key")
  constructor
  · simpa [St.init] using h9.1 ["Camping", "Aquatics"] St.init
  · have h2 := h9.2 "Camping" [] St.init "duplicate key" rfl
    rw [h2]
    simp [department_seed_loop, St.init]

theorem remote_frame_refl (s : St) : remote_frame s s := by
  simp [remote_frame]

theorem remote_frame_trans {a b c : St} (h1 : remote_frame a b) (h2 : remote_frame b c) :
    remote_frame a c := by
  obtain ⟨h1k, h1d, h1b, h1r, h1p, h1l⟩ := h1
  obtain ⟨h2k, h2d, h2b, h2r, h2p, h2l⟩ := h2
  exact ⟨h1k.trans h2k, h1d.trans h2d, h1b.trans h2b, h1r.trans h2r,
    h1p.trans h2p, h1l.trans h2l⟩

theorem print_requirements_frame :
    (∀ r : Option Requirement, ∀ indent s,
      remote_frame (print_one_requirement r indent s).1 s) ∧
    (∀ rs : List (Option Requirement), ∀ indent s,
      remote_frame (print_all_requirements rs indent s).1 s) := by
  refine req_node_measure.mutual_induct _ _ ?_ ?_ ?_ ?_
  · intro indent s
    simp [print_one_requirement, remote_frame]
  · intro idnf desc children pid b q ih indent s
    by_cases hc : children.isEmpty
    · simp [print_one_requirement, if_pos hc, remote_frame]
    · have ihc := ih (indent ++ "\t")
        { s with
          prints := s.prints ++
            [indent ++ "RQMT_IDNF: " ++ idnf ++ "\n" ++ indent ++ "RQMT_DESC: " ++ desc],
          count := s.count + 1 }
      simp only [print_one_requirement, if_neg hc]
      simpa [remote_frame] using ihc
  · intro indent s
    simp [print_all_requirements, remote_frame]
  · intro r rest ih1 ih2 indent s
    have h1 := ih1 indent s
    cases hh : (print_one_requirement r indent s).2 with
    | some e => simpa [print_all_requirements, hh] using h1
    | none =>
      have h2 := ih2 indent (print_one_requirement r indent s).1
      simpa [print_all_requirements, hh] using remote_frame_trans h2 h1

theorem print_badge_list_frame (mbs : List MeritBadge) :
    ∀ s, remote_frame (print_badge_list mbs s).1 s := by
  induction mbs with
  | nil => intro s; simp [print_badge_list, remote_frame]
  | cons mb rest ih =>
    intro s
    have hall := print_requirements_frame.2 mb.requirements "\t"
      { s with prints := s.prints ++
          [mb.badge_name, mb.badge_desc, boolRepr mb.eagle_badge, mb.dpmt_name] }
    cases hh : (print_all_requirements mb.requirements "\t"
        { s with prints := s.prints ++
            [mb.badge_name, mb.badge_desc, boolRepr mb.eagle_badge, mb.dpmt_name] }).2 with
    | some e =>
      simp only [print_badge_list, hh]
      simpa [remote_frame] using hall
    | none =>
      have h2 := ih (print_all_requirements mb.requirements "\t"
        { s with prints := s.prints ++
            [mb.badge_name, mb.badge_desc, boolRepr mb.eagle_badge, mb.dpmt_name] }).1
      have := remote_frame_trans h2 hall
      simp only [print_badge_list, hh]
      simpa [remote_frame] using this

theorem print_badge_groups_frame (groups : List (String × List MeritBadge)) :
    ∀ s, remote_frame (print_badge_groups groups s).1 s := by
  induction groups with
  | nil => intro s; simp [print_badge_groups, remote_frame]
  | cons g rest ih =>
    intro s
    obtain ⟨gname, mbs⟩ := g
    have h1 := print_badge_list_frame mbs s
    cases hh : (print_badge_list mbs s).2 with
    | some e => simpa [print_badge_groups, hh] using h1
    | none =>
      have h2 := ih (print_badge_list mbs s).1
      simpa [print_badge_groups, hh] using remote_frame_trans h2 h1

/-- C10: executing the merit-badge script's top-level flow performs no
remote insert of any badge or requirement (and no remote call at all):
for every list of discovered badge-file contents and every starting
state, whether the flow finishes or crashes in the printing phase, the
remote-call counter, the issued-call lists of all four remote tables, and
the error stream are unchanged — the only call to
`add_merit_badges_by_dpmt` (line 126 of the source) is commented out, so
the flow's effects are confined to parsing and standard-output prints. -/
theorem claim_C10 (files : List BadgeJson) (s : St) :
    remote_frame (merit_badge_script_main files s).1 s := by
  unfold merit_badge_script_main
  cases build_departments_with_merit_badges files [] with
  | error e => exact remote_frame_refl s
  | ok groups => exact print_badge_groups_frame groups s
